import Mathlib

/-!
Verification of the WebSocket load-generation benchmark core
(`websocket_benchmark.py`): the wire codec, the per-connection session
state machine, the metrics aggregation pipeline, and the orchestrator's
pre-flight gating.

Conventions of the embedding:
* Bytes are `Nat` values reduced mod 256 where the source packs them.
* Python floats used as latency samples are modelled as exact rationals
  (`ℚ`); the four input axes are modelled by their IEEE-754 bit
  patterns (a `Nat` below `2 ^ 32`), since only the byte-level layout of
  the frame matters to the claims.
* The percentile index `int(len * p)` that the source computes with
  double arithmetic is embedded as exact natural floor division
  (`(95 * n) / 100`, `(99 * n) / 100`, `(995 * n) / 1000`, `n / 2`).
  The double constants `0.95`, `0.99`, `0.995` all round to values
  strictly below the true rationals, and the rounding error of the
  product is below half an ulp of the neighbouring integer for every
  list length that can arise, so `int(n * p)` agrees with the exact
  floor (checked exhaustively for all lengths up to two million).
* Fallible operations (list indexing, Python `min`/`max` on a possibly
  empty list, integer division by a possibly zero denominator) return
  `Option`; `none` models the raised exception.
* The concurrent session (`measure_latency` interleaved with
  `receive_loop`) is a small-step transition system; every `await` in
  the source is an interleaving point, matching the cooperative
  scheduling model.
-/

/-! ### Wire codec (`ServerBound`, `struct.pack`) -/

/-- The `ServerBound` enumeration of the source: `Init = 0`, `Input = 1`,
`Spawn = 2`. -/
inductive ServerBound
  | Init
  | Input
  | Spawn
deriving DecidableEq, Repr

/-- Numeric tag of a `ServerBound` message kind. -/
def ServerBound.tag : ServerBound → Nat
  | .Init => 0
  | .Input => 1
  | .Spawn => 2

/-- Four little-endian bytes of a natural number (the layout `struct`
uses for the 4-byte codes `i` and `f`). -/
def le4 (n : Nat) : List Nat :=
  [n % 256, n / 256 % 256, n / 256 ^ 2 % 256, n / 256 ^ 3 % 256]

/-- `struct.pack` code `B`: one unsigned byte. -/
def pack_u8 (n : Nat) : List Nat := [n % 256]

/-- `struct.pack` code `i`: a signed 32-bit integer, little-endian. -/
def pack_i32 (n : Int) : List Nat := le4 (n.emod (2 ^ 32)).toNat

/-- `struct.pack` code `f`: an IEEE-754 single, little-endian, given by
its 32-bit pattern. -/
def pack_f32 (bits : Nat) : List Nat := le4 (bits % 2 ^ 32)

/-- The Input frame built in the Active loop of `measure_latency`:
`struct.pack('<Biffff', ServerBound.Input, flags, x1, y1, x2, y2)`. -/
def encode_input (flags : Int) (ax1x ax1y ax2x ax2y : Nat) : List Nat :=
  pack_u8 (ServerBound.tag .Input) ++ pack_i32 flags ++
    pack_f32 ax1x ++ pack_f32 ax1y ++ pack_f32 ax2x ++ pack_f32 ax2y

/-! ### Connection session state machine (`BenchmarkBot`)

One simulated client: the `measure_latency` coroutine interleaved with
the background `receive_loop` task.  Every `await` of the source is an
interleaving point.  `spawn_frames_sent` counts the Spawn frames sent by
`spawn_bot` (an observation of the trace, not program state); all other
fields are attributes of `BenchmarkBot`. -/

/-- Control position of the `measure_latency` coroutine.  `accept k` is
iteration `k` of the ten-round accept-wait loop; `closing` is the
`disconnect` call of the `finally` block. -/
inductive MainPC
  | start
  | init
  | accept (k : Nat)
  | sleep1
  | startRecv
  | spawn1
  | sleep2
  | spawn2
  | sleep3
  | loop
  | closing
  | done
deriving DecidableEq, Repr

/-- State of one `BenchmarkBot`. -/
structure SessState where
  bot_id : Nat
  running : Bool
  connected : Bool
  spawned : Bool
  latencies : List ℚ
  packets_sent : Nat
  packets_received : Nat
  spawn_frames_sent : Nat
  connect_attempts : Nat
  pc : MainPC
  recv_running : Bool
deriving DecidableEq, Repr

/-- `BenchmarkBot.__init__(bot_id, url)`. -/
def initBot (i : Nat) : SessState :=
  { bot_id := i, running := true, connected := false, spawned := false,
    latencies := [], packets_sent := 0, packets_received := 0,
    spawn_frames_sent := 0, connect_attempts := 0, pc := .start,
    recv_running := false }

/-- One interleaved small step of the session: a step of the
`measure_latency` coroutine, of the background `receive_loop` task, or
the driver clearing `running`.  Inbound frames are unconstrained
(the server is an external collaborator). -/
inductive Step : SessState → SessState → Prop
  /-- `connect` succeeds: `connected = True`, fall through to Init. -/
  | connect_ok (s : SessState) (hpc : s.pc = .start) :
      Step s { s with connected := true,
                      connect_attempts := s.connect_attempts + 1, pc := .init }
  /-- `connect` times out or is refused: `measure_latency` returns. -/
  | connect_fail (s : SessState) (hpc : s.pc = .start) :
      Step s { s with connect_attempts := s.connect_attempts + 1, pc := .done }
  /-- The Init frame is sent. -/
  | send_init_ok (s : SessState) (hpc : s.pc = .init) :
      Step s { s with packets_sent := s.packets_sent + 1, pc := .accept 0 }
  /-- Sending Init raises: the outer handler swallows it, `finally`
  disconnects. -/
  | send_init_err (s : SessState) (hpc : s.pc = .init) :
      Step s { s with pc := .closing }
  /-- Accept-wait iteration receives the accept frame (leading byte 7):
  break out of the loop. -/
  | accept_hit (s : SessState) (k : Nat) (hpc : s.pc = .accept k)
      (hk : k < 10) (msg : List Nat) (hmsg : msg.head? = some 7) :
      Step s { s with packets_received := s.packets_received + 1, pc := .sleep1 }
  /-- Accept-wait iteration receives some other frame: keep looping. -/
  | accept_miss (s : SessState) (k : Nat) (hpc : s.pc = .accept k)
      (hk : k < 10) (msg : List Nat) (hmsg : msg.head? ≠ some 7) :
      Step s { s with packets_received := s.packets_received + 1,
                      pc := .accept (k + 1) }
  /-- Accept-wait iteration times out: keep looping. -/
  | accept_tout (s : SessState) (k : Nat) (hpc : s.pc = .accept k)
      (hk : k < 10) :
      Step s { s with pc := .accept (k + 1) }
  /-- A non-timeout receive failure in the accept wait propagates to the
  outer handler: `finally` disconnects. -/
  | accept_err (s : SessState) (k : Nat) (hpc : s.pc = .accept k)
      (hk : k < 10) :
      Step s { s with pc := .closing }
  /-- Ten accept-wait iterations exhausted: proceed anyway. -/
  | accept_exhaust (s : SessState) (k : Nat) (hpc : s.pc = .accept k)
      (hk : 10 ≤ k) :
      Step s { s with pc := .sleep1 }
  /-- The `sleep(0.1)` settle delay elapses. -/
  | sleep1_done (s : SessState) (hpc : s.pc = .sleep1) :
      Step s { s with pc := .startRecv }
  /-- `create_task(receive_loop)`: the background task starts before
  either Spawn frame is sent. -/
  | start_recv (s : SessState) (hpc : s.pc = .startRecv) :
      Step s { s with recv_running := true, pc := .spawn1 }
  /-- First `spawn_bot()` send succeeds. -/
  | spawn1_ok (s : SessState) (hpc : s.pc = .spawn1) :
      Step s { s with packets_sent := s.packets_sent + 1,
                      spawn_frames_sent := s.spawn_frames_sent + 1,
                      pc := .sleep2 }
  /-- First `spawn_bot()` send raises: `spawn_bot` returns `False`,
  which `measure_latency` ignores. -/
  | spawn1_err (s : SessState) (hpc : s.pc = .spawn1) :
      Step s { s with pc := .sleep2 }
  /-- The `sleep(0.2)` between the two Spawn sends elapses. -/
  | sleep2_done (s : SessState) (hpc : s.pc = .sleep2) :
      Step s { s with pc := .spawn2 }
  /-- Second `spawn_bot()` send succeeds. -/
  | spawn2_ok (s : SessState) (hpc : s.pc = .spawn2) :
      Step s { s with packets_sent := s.packets_sent + 1,
                      spawn_frames_sent := s.spawn_frames_sent + 1,
                      pc := .sleep3 }
  /-- Second `spawn_bot()` send raises. -/
  | spawn2_err (s : SessState) (hpc : s.pc = .spawn2) :
      Step s { s with pc := .sleep3 }
  /-- The `sleep(0.5)` settle delay elapses: enter the Active loop. -/
  | sleep3_done (s : SessState) (hpc : s.pc = .sleep3) :
      Step s { s with pc := .loop }
  /-- One Active-loop iteration: send an Input frame, sleep one tick,
  record one latency sample `q`. -/
  | loop_iter (s : SessState) (hpc : s.pc = .loop) (hr : s.running = true)
      (q : ℚ) :
      Step s { s with packets_sent := s.packets_sent + 1,
                      latencies := s.latencies ++ [q], pc := .loop }
  /-- The Active loop ends (window elapsed, `running` cleared, or a send
  raised): cancel the receive task, `finally` disconnects. -/
  | loop_exit (s : SessState) (hpc : s.pc = .loop) :
      Step s { s with recv_running := false, pc := .closing }
  /-- `disconnect()`: clear `running` and close (close errors are
  swallowed). -/
  | close_done (s : SessState) (hpc : s.pc = .closing) :
      Step s { s with running := false, pc := .done }
  /-- `receive_loop` receives a frame; a leading byte 0 or 2 sets
  `spawned`. -/
  | recv_frame (s : SessState) (msg : List Nat)
      (hrr : s.recv_running = true) (hr : s.running = true) :
      Step s { s with packets_received := s.packets_received + 1,
                      spawned :=
                        if msg.head? = some 0 ∨ msg.head? = some 2 then true
                        else s.spawned }
  /-- `receive_loop` receive times out: loop again. -/
  | recv_tout (s : SessState) (hrr : s.recv_running = true)
      (hr : s.running = true) :
      Step s s
  /-- `receive_loop` hits a non-timeout receive failure: the task ends. -/
  | recv_err (s : SessState) (hrr : s.recv_running = true) :
      Step s { s with recv_running := false }
  /-- `receive_loop` observes `running = False` and ends. -/
  | recv_stop (s : SessState) (hrr : s.recv_running = true)
      (hr : s.running = false) :
      Step s { s with recv_running := false }
  /-- The driver clears the session's `running` flag. -/
  | driver_stop (s : SessState) :
      Step s { s with running := false }

/-- Reachability from a given start state. -/
def Reachable (s₀ s : SessState) : Prop :=
  Relation.ReflTransGen Step s₀ s

/-- `True` for the control positions strictly after the Init send
succeeded. -/
def afterInitSend : MainPC → Prop
  | .accept _ | .sleep1 | .startRecv | .spawn1 | .sleep2 | .spawn2
  | .sleep3 | .loop => True
  | _ => False

/-- The inductive invariant of one session. -/
def SessInv (s : SessState) : Prop :=
  (s.pc = .start →
    s.connected = false ∧ s.spawned = false ∧ s.latencies = [] ∧
    s.packets_sent = 0 ∧ s.recv_running = false ∧ s.connect_attempts = 0) ∧
  (s.pc ≠ .start → s.connect_attempts = 1) ∧
  (s.pc ≠ .start → s.pc ≠ .done → s.connected = true) ∧
  (afterInitSend s.pc → 1 ≤ s.packets_sent) ∧
  (s.recv_running = true → s.connected = true ∧ 1 ≤ s.packets_sent) ∧
  (s.spawned = true → s.connected = true ∧ 1 ≤ s.packets_sent) ∧
  (s.connected = false →
    s.latencies = [] ∧ s.spawned = false ∧ s.packets_sent = 0 ∧
    s.recv_running = false)

lemma inv_initBot (i : Nat) : SessInv (initBot i) := by
  refine ⟨fun _ => ⟨rfl, rfl, rfl, rfl, rfl, rfl⟩, ?_, ?_, ?_, ?_, ?_, ?_⟩ <;>
    simp [initBot, afterInitSend]

lemma step_inv {s t : SessState} (hst : Step s t) (h : SessInv s) : SessInv t := by
  obtain ⟨h1, h2, h3, h4, h5, h6, h7⟩ := h
  cases hst with
  | connect_ok hpc =>
      obtain ⟨-, hsp, hlat, hsent, hrr, -⟩ := h1 hpc
      exact ⟨by simp, by simp [h1 hpc], by simp, by simp [hpc, afterInitSend],
        by simp [hrr], by simp [hsp], by simp⟩
  | connect_fail hpc =>
      obtain ⟨hco, hsp, hlat, hsent, hrr, hat⟩ := h1 hpc
      exact ⟨by simp, by simp [hat], by simp, by simp [hpc, afterInitSend],
        by simp [hrr], by simp [hsp],
        fun _ => by simp [hlat, hsp, hsent, hrr]⟩
  | send_init_ok hpc =>
      have hco := h3 (by simp [hpc]) (by simp [hpc])
      exact ⟨by simp, fun _ => h2 (by simp [hpc]), by simp [hco],
        by simp [afterInitSend], fun hr => ⟨(h5 hr).1, Nat.le_add_left 1 _⟩,
        fun hs => ⟨(h6 hs).1, Nat.le_add_left 1 _⟩, by simp [hco]⟩
  | send_init_err hpc =>
      have hco := h3 (by simp [hpc]) (by simp [hpc])
      exact ⟨by simp, fun _ => h2 (by simp [hpc]), by simp [hco],
        by simp [afterInitSend], h5, h6, by simp [hco]⟩
  | accept_hit k hpc hk msg hmsg =>
      have hco := h3 (by simp [hpc]) (by simp [hpc])
      exact ⟨by simp, fun _ => h2 (by simp [hpc]), by simp [hco],
        fun _ => h4 (by simp [hpc, afterInitSend]), h5, h6, by simp [hco]⟩
  | accept_miss k hpc hk msg hmsg =>
      have hco := h3 (by simp [hpc]) (by simp [hpc])
      exact ⟨by simp, fun _ => h2 (by simp [hpc]), by simp [hco],
        fun _ => h4 (by simp [hpc, afterInitSend]), h5, h6, by simp [hco]⟩
  | accept_tout k hpc hk =>
      have hco := h3 (by simp [hpc]) (by simp [hpc])
      exact ⟨by simp, fun _ => h2 (by simp [hpc]), by simp [hco],
        fun _ => h4 (by simp [hpc, afterInitSend]), h5, h6, by simp [hco]⟩
  | accept_err k hpc hk =>
      have hco := h3 (by simp [hpc]) (by simp [hpc])
      exact ⟨by simp, fun _ => h2 (by simp [hpc]), by simp [hco],
        by simp [afterInitSend], h5, h6, by simp [hco]⟩
  | accept_exhaust k hpc hk =>
      have hco := h3 (by simp [hpc]) (by simp [hpc])
      exact ⟨by simp, fun _ => h2 (by simp [hpc]), by simp [hco],
        fun _ => h4 (by simp [hpc, afterInitSend]), h5, h6, by simp [hco]⟩
  | sleep1_done hpc =>
      have hco := h3 (by simp [hpc]) (by simp [hpc])
      exact ⟨by simp, fun _ => h2 (by simp [hpc]), by simp [hco],
        fun _ => h4 (by simp [hpc, afterInitSend]), h5, h6, by simp [hco]⟩
  | start_recv hpc =>
      have hco := h3 (by simp [hpc]) (by simp [hpc])
      have hsent := h4 (by simp [hpc, afterInitSend])
      exact ⟨by simp, fun _ => h2 (by simp [hpc]), by simp [hco],
        fun _ => hsent, fun _ => ⟨hco, hsent⟩, h6, by simp [hco]⟩
  | spawn1_ok hpc =>
      have hco := h3 (by simp [hpc]) (by simp [hpc])
      exact ⟨by simp, fun _ => h2 (by simp [hpc]), by simp [hco],
        fun _ => Nat.le_add_left 1 _, fun hr => ⟨(h5 hr).1, Nat.le_add_left 1 _⟩,
        fun hs => ⟨(h6 hs).1, Nat.le_add_left 1 _⟩, by simp [hco]⟩
  | spawn1_err hpc =>
      have hco := h3 (by simp [hpc]) (by simp [hpc])
      exact ⟨by simp, fun _ => h2 (by simp [hpc]), by simp [hco],
        fun _ => h4 (by simp [hpc, afterInitSend]), h5, h6, by simp [hco]⟩
  | sleep2_done hpc =>
      have hco := h3 (by simp [hpc]) (by simp [hpc])
      exact ⟨by simp, fun _ => h2 (by simp [hpc]), by simp [hco],
        fun _ => h4 (by simp [hpc, afterInitSend]), h5, h6, by simp [hco]⟩
  | spawn2_ok hpc =>
      have hco := h3 (by simp [hpc]) (by simp [hpc])
      exact ⟨by simp, fun _ => h2 (by simp [hpc]), by simp [hco],
        fun _ => Nat.le_add_left 1 _, fun hr => ⟨(h5 hr).1, Nat.le_add_left 1 _⟩,
        fun hs => ⟨(h6 hs).1, Nat.le_add_left 1 _⟩, by simp [hco]⟩
  | spawn2_err hpc =>
      have hco := h3 (by simp [hpc]) (by simp [hpc])
      exact ⟨by simp, fun _ => h2 (by simp [hpc]), by simp [hco],
        fun _ => h4 (by simp [hpc, afterInitSend]), h5, h6, by simp [hco]⟩
  | sleep3_done hpc =>
      have hco := h3 (by simp [hpc]) (by simp [hpc])
      exact ⟨by simp, fun _ => h2 (by simp [hpc]), by simp [hco],
        fun _ => h4 (by simp [hpc, afterInitSend]), h5, h6, by simp [hco]⟩
  | loop_iter hpc hr q =>
      have hco := h3 (by simp [hpc]) (by simp [hpc])
      exact ⟨by simp, fun _ => h2 (by simp [hpc]), by simp [hco],
        fun _ => Nat.le_add_left 1 _, fun hrr => ⟨(h5 hrr).1, Nat.le_add_left 1 _⟩,
        fun hs => ⟨(h6 hs).1, Nat.le_add_left 1 _⟩, by simp [hco]⟩
  | loop_exit hpc =>
      have hco := h3 (by simp [hpc]) (by simp [hpc])
      exact ⟨by simp, fun _ => h2 (by simp [hpc]), by simp [hco],
        by simp [afterInitSend], by simp, h6, by simp [hco]⟩
  | close_done hpc =>
      have hco := h3 (by simp [hpc]) (by simp [hpc])
      exact ⟨by simp, fun _ => h2 (by simp [hpc]), by simp, by
        simp [afterInitSend], h5, h6, by simp [hco]⟩
  | recv_frame msg hrr hr =>
      have hco := (h5 hrr).1
      have hsent := (h5 hrr).2
      refine ⟨?_, h2, h3, h4, h5, ?_, by simp [hco]⟩
      · intro hpc
        exact absurd (h1 hpc).2.2.2.2.1 (by simp [hrr])
      · intro hs
        by_cases hm : msg.head? = some 0 ∨ msg.head? = some 2
        · exact ⟨hco, hsent⟩
        · simp only [if_neg hm] at hs
          exact h6 hs
  | recv_tout hrr hr =>
      exact ⟨h1, h2, h3, h4, h5, h6, h7⟩
  | recv_err hrr =>
      have hco := (h5 hrr).1
      refine ⟨?_, h2, h3, h4, by simp, h6, by simp [hco]⟩
      intro hpc
      exact absurd (h1 hpc).2.2.2.2.1 (by simp [hrr])
  | recv_stop hrr hr =>
      have hco := (h5 hrr).1
      refine ⟨?_, h2, h3, h4, by simp, h6, by simp [hco]⟩
      intro hpc
      exact absurd (h1 hpc).2.2.2.2.1 (by simp [hrr])
  | driver_stop =>
      exact ⟨h1, h2, h3, h4, h5, h6, h7⟩

/-- Every reachable session state satisfies the invariant. -/
lemma reachable_inv {i : Nat} {s : SessState}
    (hr : Reachable (initBot i) s) : SessInv s := by
  induction hr with
  | refl => exact inv_initBot i
  | tail hsteps hstep ih => exact step_inv hstep ih

/-! ### Metrics aggregation (`run_benchmark`, lines 241-261) -/

/-- The collection loop of `run_benchmark`: starting from an empty pool
and zero totals, for each bot extend `all_latencies` with the bot's
samples and add its packet counters. -/
def collectStats (bots : List SessState) : List ℚ × Nat × Nat :=
  bots.foldl
    (fun acc bot =>
      (acc.1 ++ bot.latencies, acc.2.1 + bot.packets_sent,
        acc.2.2 + bot.packets_received))
    ([], 0, 0)

/-- `connected = sum(1 for bot in bots if bot.connected)`. -/
def connectedCount (bots : List SessState) : Nat :=
  bots.countP (fun bot => bot.connected)

/-- `spawned = sum(1 for bot in bots if bot.spawned)`. -/
def spawnedCount (bots : List SessState) : Nat :=
  bots.countP (fun bot => bot.spawned)

/-- `bots = [BenchmarkBot(i, url) for i in range(num_users)]`. -/
def createBots (n : Nat) : List SessState := (List.range n).map initBot

/-- Python's in-place ascending `list.sort()`. -/
def pySort (l : List ℚ) : List ℚ := List.insertionSort (· ≤ ·) l

/-- Python's `min` on a list; raises (`none`) on an empty list. -/
def pyMin : List ℚ → Option ℚ
  | [] => none
  | x :: xs => some (xs.foldl min x)

/-- Python's `max` on a list; raises (`none`) on an empty list. -/
def pyMax : List ℚ → Option ℚ
  | [] => none
  | x :: xs => some (xs.foldl max x)

/-- The seven latency summary statistics of one load level, in the
order the source computes them. -/
structure LatencyStats where
  avg_latency : ℚ
  median_latency : ℚ
  p95_latency : ℚ
  p99_latency : ℚ
  p99_5_latency : ℚ
  min_latency : ℚ
  max_latency : ℚ
deriving DecidableEq, Repr

/-- The statistics block of `run_benchmark`: if the pool is non-empty,
sort it and index the percentiles at `n // 2`, `int(n * 0.95)`,
`int(n * 0.99)`, `int(n * 0.995)`; otherwise report all-zero statistics.
Out-of-range indexing or `min`/`max` of an empty list would raise, so
those paths return `none`. -/
def summarize (all_latencies : List ℚ) : Option LatencyStats :=
  if all_latencies.isEmpty then
    some { avg_latency := 0, median_latency := 0, p95_latency := 0,
           p99_latency := 0, p99_5_latency := 0, min_latency := 0,
           max_latency := 0 }
  else
    let sorted := pySort all_latencies
    let n := sorted.length
    match sorted.get? (n / 2), sorted.get? ((95 * n) / 100),
        sorted.get? ((99 * n) / 100), sorted.get? ((995 * n) / 1000),
        pyMin sorted, pyMax sorted with
    | some median_latency, some p95_latency, some p99_latency,
        some p99_5_latency, some min_latency, some max_latency =>
        some { avg_latency := sorted.sum / (n : ℚ), median_latency,
               p95_latency, p99_latency, p99_5_latency, min_latency,
               max_latency }
    | _, _, _, _, _, _ => none

/-- One result row of a load level (the dict `run_benchmark` returns,
lines 282-297). -/
structure ResultRow where
  users : Nat
  duration : ℚ
  connected : Nat
  spawned : Nat
  packets_sent : Nat
  packets_received : Nat
  stats : LatencyStats
  success_rate : ℚ
deriving DecidableEq, Repr

/-- The result-record construction of `run_benchmark`: collect, then
summarize, then build the row.  `connected / num_users` raises
`ZeroDivisionError` when `num_users = 0` (modelled as `none`). -/
def run_benchmark_result (bots : List SessState) (num_users : Nat)
    (total_duration : ℚ) : Option ResultRow :=
  let collected := collectStats bots
  match summarize collected.1 with
  | none => none
  | some st =>
      if num_users = 0 then none
      else
        some { users := num_users, duration := total_duration,
               connected := connectedCount bots,
               spawned := spawnedCount bots,
               packets_sent := collected.2.1,
               packets_received := collected.2.2, stats := st,
               success_rate :=
                 (connectedCount bots : ℚ) / (num_users : ℚ) * 100 }

/-! ### Benchmark orchestrator (`main`, `check_server_connection`) -/

/-- `test_cases = [1] + list(range(100, 1001, 100))`. -/
def test_cases : List Nat := 1 :: List.range' 100 10 100

/-- The diagnostic `main` prints when the pre-flight probe fails. -/
def preflight_diagnostic : String :=
  "Unable to connect to the server; the test is aborted."

/-- `main` after the configuration banner: if the pre-flight
reachability probe fails, emit the diagnostic and return before any
load level runs; otherwise run every configured level in order.  The
per-level execution is abstracted as `runLevel` (its outcome depends on
the server). -/
def mainBenchmark (preflight_ok : Bool) (runLevel : Nat → ResultRow) :
    Except String (List ResultRow) :=
  if preflight_ok then Except.ok (test_cases.map runLevel)
  else Except.error preflight_diagnostic

/-! ### Concrete witness states for the session machine -/

/-- The session state reached by: successful connect, Init sent, accept
frame received, receive task started, and then the background task
receiving a tag-0 frame before either Spawn send runs. -/
def sSpawnedEarly : SessState :=
  { bot_id := 0, running := true, connected := true, spawned := true,
    latencies := [], packets_sent := 1, packets_received := 2,
    spawn_frames_sent := 0, connect_attempts := 1, pc := .spawn1,
    recv_running := true }

/-- The terminal state of a session whose single connect attempt
failed. -/
def sFailedConnect : SessState :=
  { bot_id := 0, running := true, connected := false, spawned := false,
    latencies := [], packets_sent := 0, packets_received := 0,
    spawn_frames_sent := 0, connect_attempts := 1, pc := .done,
    recv_running := false }

lemma reach_spawned_early : Reachable (initBot 0) sSpawnedEarly := by
  refine Relation.ReflTransGen.head (Step.connect_ok _ rfl) ?_
  refine Relation.ReflTransGen.head (Step.send_init_ok _ rfl) ?_
  refine Relation.ReflTransGen.head
    (Step.accept_hit _ 0 rfl (by omega) [7] rfl) ?_
  refine Relation.ReflTransGen.head (Step.sleep1_done _ rfl) ?_
  refine Relation.ReflTransGen.head (Step.start_recv _ rfl) ?_
  refine Relation.ReflTransGen.head (Step.recv_frame _ [0] rfl rfl) ?_
  exact Relation.ReflTransGen.refl

lemma reach_failed_connect : Reachable (initBot 0) sFailedConnect :=
  Relation.ReflTransGen.head (Step.connect_fail _ rfl)
    Relation.ReflTransGen.refl

/-! ### Helper lemmas -/

lemma isEmpty_false_of_ne_nil {l : List ℚ} (h : l ≠ []) :
    l.isEmpty = false := by
  cases l with
  | nil => exact absurd rfl h
  | cons a as => rfl

lemma pySort_length (l : List ℚ) : (pySort l).length = l.length := by
  simp [pySort]

lemma pySort_sorted (l : List ℚ) : (pySort l).Sorted (· ≤ ·) :=
  List.sorted_insertionSort _ l

lemma foldl_min_le_seed : ∀ (as : List ℚ) (a : ℚ), as.foldl min a ≤ a
  | [], a => le_refl a
  | b :: bs, a => le_trans (foldl_min_le_seed bs (min a b)) (min_le_left a b)

lemma foldl_min_le_mem : ∀ (as : List ℚ) (a x : ℚ), x ∈ as → as.foldl min a ≤ x
  | [], _, _, hx => absurd hx (List.not_mem_nil _)
  | b :: bs, a, x, hx => by
      rcases List.mem_cons.mp hx with hxb | hx2
      · subst hxb
        exact le_trans (foldl_min_le_seed bs _) (min_le_right a x)
      · exact foldl_min_le_mem bs _ x hx2

lemma foldl_min_le {as : List ℚ} {a x : ℚ} (hx : x ∈ a :: as) :
    as.foldl min a ≤ x := by
  rcases List.mem_cons.mp hx with hxa | hx2
  · subst hxa
    exact foldl_min_le_seed as x
  · exact foldl_min_le_mem as a x hx2

lemma le_foldl_max_seed : ∀ (as : List ℚ) (a : ℚ), a ≤ as.foldl max a
  | [], a => le_refl a
  | b :: bs, a => le_trans (le_max_left a b) (le_foldl_max_seed bs (max a b))

lemma le_foldl_max_mem : ∀ (as : List ℚ) (a x : ℚ), x ∈ as → x ≤ as.foldl max a
  | [], _, _, hx => absurd hx (List.not_mem_nil _)
  | b :: bs, a, x, hx => by
      rcases List.mem_cons.mp hx with hxb | hx2
      · subst hxb
        exact le_trans (le_max_right a x) (le_foldl_max_seed bs _)
      · exact le_foldl_max_mem bs _ x hx2

lemma le_foldl_max {as : List ℚ} {a x : ℚ} (hx : x ∈ a :: as) :
    x ≤ as.foldl max a := by
  rcases List.mem_cons.mp hx with hxa | hx2
  · subst hxa
    exact le_foldl_max_seed as x
  · exact le_foldl_max_mem as a x hx2

lemma pyMin_le {l : List ℚ} {m x : ℚ} (hm : pyMin l = some m) (hx : x ∈ l) :
    m ≤ x := by
  cases l with
  | nil => cases hx
  | cons a as =>
      simp only [pyMin, Option.some.injEq] at hm
      subst hm
      exact foldl_min_le hx

lemma le_pyMax {l : List ℚ} {m x : ℚ} (hm : pyMax l = some m) (hx : x ∈ l) :
    x ≤ m := by
  cases l with
  | nil => cases hx
  | cons a as =>
      simp only [pyMax, Option.some.injEq] at hm
      subst hm
      exact le_foldl_max hx

/-- In the non-empty branch `summarize` succeeds, the median and the
three percentiles are the sorted pool indexed at `n / 2`,
`(95 * n) / 100`, `(99 * n) / 100` and `(995 * n) / 1000`, the min and
max are Python `min`/`max` of the pool, and the average is the pool sum
over `n`. -/
lemma summarize_pos (l : List ℚ) (h : l ≠ []) :
    ∃ st : LatencyStats,
      summarize l = some st ∧
      (pySort l).get? (l.length / 2) = some st.median_latency ∧
      (pySort l).get? ((95 * l.length) / 100) = some st.p95_latency ∧
      (pySort l).get? ((99 * l.length) / 100) = some st.p99_latency ∧
      (pySort l).get? ((995 * l.length) / 1000) = some st.p99_5_latency ∧
      pyMin (pySort l) = some st.min_latency ∧
      pyMax (pySort l) = some st.max_latency ∧
      st.avg_latency = (pySort l).sum / (l.length : ℚ) := by
  have hpos : 0 < l.length := List.length_pos.mpr h
  have hlen := pySort_length l
  have hm : l.length / 2 < (pySort l).length := by omega
  have h95 : (95 * l.length) / 100 < (pySort l).length := by omega
  have h99 : (99 * l.length) / 100 < (pySort l).length := by omega
  have h995 : (995 * l.length) / 1000 < (pySort l).length := by omega
  obtain ⟨mn, hmn⟩ : ∃ mn, pyMin (pySort l) = some mn := by
    cases hsort : pySort l with
    | nil => rw [hsort] at hlen; simp at hlen; omega
    | cons a as => exact ⟨as.foldl min a, rfl⟩
  obtain ⟨mx, hmx⟩ : ∃ mx, pyMax (pySort l) = some mx := by
    cases hsort : pySort l with
    | nil => rw [hsort] at hlen; simp at hlen; omega
    | cons a as => exact ⟨as.foldl max a, rfl⟩
  refine ⟨⟨(pySort l).sum / (l.length : ℚ), (pySort l).get ⟨_, hm⟩,
      (pySort l).get ⟨_, h95⟩, (pySort l).get ⟨_, h99⟩,
      (pySort l).get ⟨_, h995⟩, mn, mx⟩, ?_, List.get?_eq_get hm,
      List.get?_eq_get h95, List.get?_eq_get h99, List.get?_eq_get h995,
      hmn, hmx, rfl⟩
  unfold summarize
  rw [isEmpty_false_of_ne_nil h]
  simp only [Bool.false_eq_true, if_false, hlen]
  rw [List.get?_eq_get hm, List.get?_eq_get h95, List.get?_eq_get h99,
    List.get?_eq_get h995, hmn, hmx]

lemma sorted_get?_mono {s : List ℚ} (hs : s.Sorted (· ≤ ·)) {i j : Nat}
    {x y : ℚ} (hij : i ≤ j) (hi : s.get? i = some x)
    (hj : s.get? j = some y) : x ≤ y := by
  obtain ⟨hi', hxi⟩ := List.get?_eq_some.mp hi
  obtain ⟨hj', hyj⟩ := List.get?_eq_some.mp hj
  subst hxi
  subst hyj
  exact List.Sorted.rel_get_of_le hs (Fin.mk_le_mk.mpr hij)

lemma mem_of_get?_eq_some {s : List ℚ} {i : Nat} {x : ℚ}
    (hi : s.get? i = some x) : x ∈ s := by
  obtain ⟨hi', hxi⟩ := List.get?_eq_some.mp hi
  subst hxi
  exact List.get_mem s i hi'

lemma summarize_isSome (l : List ℚ) : (summarize l).isSome = true := by
  by_cases h : l = []
  · subst h; rfl
  · obtain ⟨st, hst, -⟩ := summarize_pos l h
    rw [hst]; rfl

lemma collectStats_go (bots : List SessState) (acc : List ℚ × Nat × Nat) :
    bots.foldl
      (fun acc bot =>
        (acc.1 ++ bot.latencies, acc.2.1 + bot.packets_sent,
          acc.2.2 + bot.packets_received)) acc =
    (acc.1 ++ (bots.map (fun bot => bot.latencies)).flatten,
      acc.2.1 + (bots.map (fun bot => bot.packets_sent)).sum,
      acc.2.2 + (bots.map (fun bot => bot.packets_received)).sum) := by
  induction bots generalizing acc with
  | nil => simp
  | cons b bs ih =>
      simp only [List.foldl_cons, List.map_cons, List.flatten, List.sum_cons, ih]
      simp [List.append_assoc]
      omega

/-! ### Claim theorems -/

/-- C1 counterexample: the claim implies an 18-byte Input frame
(1-byte tag, 1-byte flags, four 4-byte floats), but the encoded frame
for flags = 1 and all-zero axes is 21 bytes long, and the four bytes
after the tag are the little-endian int32 flags field `[1, 0, 0, 0]`. -/
theorem input_frame_not_one_byte_flags :
    (encode_input 1 0 0 0 0).length = 21 ∧
    (encode_input 1 0 0 0 0).length ≠ 18 ∧
    ((encode_input 1 0 0 0 0).drop 1).take 4 = [1, 0, 0, 0] := by
  decide

/-- C1 (amended): every encoded Input frame is a one-byte tag equal
to 1, then a four-byte little-endian int32 flags field, then the four
4-byte little-endian floats in axis order; the frame is 21 bytes and
every byte is below 256. -/
theorem input_frame_layout (flags : Int) (ax1x ax1y ax2x ax2y : Nat) :
    (encode_input flags ax1x ax1y ax2x ax2y).length = 21 ∧
    (encode_input flags ax1x ax1y ax2x ax2y).take 1 = [1] ∧
    ((encode_input flags ax1x ax1y ax2x ax2y).drop 1).take 4 = pack_i32 flags ∧
    (encode_input flags ax1x ax1y ax2x ax2y).drop 5 =
      pack_f32 ax1x ++ pack_f32 ax1y ++ pack_f32 ax2x ++ pack_f32 ax2y ∧
    ∀ b ∈ encode_input flags ax1x ax1y ax2x ax2y, b < 256 := by
  refine ⟨rfl, rfl, rfl, rfl, ?_⟩
  intro b hb
  simp only [encode_input, pack_u8, pack_i32, pack_f32, le4, ServerBound.tag,
    List.mem_append, List.mem_cons, List.not_mem_nil, or_false] at hb
  omega

/-- C1 witness. -/
theorem input_frame_layout_witness :
    (encode_input 2 0 0 0 0).length = 21 ∧
    (encode_input 2 0 0 0 0).take 1 = [1] :=
  ⟨(input_frame_layout 2 0 0 0 0).1, (input_frame_layout 2 0 0 0 0).2.1⟩

/-- C2 (amended): for every session, `spawned` may only become true
after `connected` is true and after at least one frame (the Init) has
been sent; because the background receive task starts before the Spawn
sends, `spawned` can however become true with zero Spawn frames sent. -/
theorem spawned_only_after_connected (i : Nat) (s : SessState)
    (hr : Reachable (initBot i) s) (hs : s.spawned = true) :
    s.connected = true ∧ 1 ≤ s.packets_sent :=
  (reachable_inv hr).2.2.2.2.2.1 hs

/-- C2 witness. -/
theorem spawned_only_after_connected_witness :
    sSpawnedEarly.connected = true ∧ 1 ≤ sSpawnedEarly.packets_sent :=
  spawned_only_after_connected 0 sSpawnedEarly reach_spawned_early rfl

/-- C2 counterexample: a reachable interleaving in which the background
receive task sets `spawned = true` while zero Spawn frames have been
sent (the receive task is created before the two `spawn_bot` calls, and
a frame tagged 0 arrives at that point). -/
theorem spawned_with_zero_spawn_frames :
    Reachable (initBot 0) sSpawnedEarly ∧ sSpawnedEarly.spawned = true ∧
    sSpawnedEarly.spawn_frames_sent = 0 :=
  ⟨reach_spawned_early, rfl, rfl⟩

/-- C3: for every non-empty pooled latency sequence, the reported
median and percentiles are the sorted pool indexed at the zero-based
positions `N / 2`, `⌊0.95 N⌋`, `⌊0.99 N⌋` and `⌊0.995 N⌋`. -/
theorem percentile_floor_index (l : List ℚ) (h : l ≠ []) :
    ∃ st : LatencyStats, summarize l = some st ∧
      (pySort l).get? (l.length / 2) = some st.median_latency ∧
      (pySort l).get? ((95 * l.length) / 100) = some st.p95_latency ∧
      (pySort l).get? ((99 * l.length) / 100) = some st.p99_latency ∧
      (pySort l).get? ((995 * l.length) / 1000) = some st.p99_5_latency := by
  obtain ⟨st, hst, hm, h95, h99, h995, -, -, -⟩ := summarize_pos l h
  exact ⟨st, hst, hm, h95, h99, h995⟩

/-- C3 witness: the spec scenario — pooled samples
`[10, 20, 30, 40, 100]` give median 30 (index 2), p95 = 100 (index 4)
and p99.5 = 100 (index 4). -/
theorem percentile_floor_index_witness :
    ∃ st : LatencyStats, summarize [10, 20, 30, 40, 100] = some st ∧
      st.median_latency = 30 ∧ st.p95_latency = 100 ∧
      st.p99_5_latency = 100 := by
  obtain ⟨st, hst, hmed, h95, h99, h995⟩ :=
    percentile_floor_index ([10, 20, 30, 40, 100] : List ℚ) (by decide)
  have e1 : (pySort [10, 20, 30, 40, 100]).get?
      (([10, 20, 30, 40, 100] : List ℚ).length / 2) = some 30 := by decide
  have e2 : (pySort [10, 20, 30, 40, 100]).get?
      ((95 * ([10, 20, 30, 40, 100] : List ℚ).length) / 100) = some 100 := by
    decide
  have e3 : (pySort [10, 20, 30, 40, 100]).get?
      ((995 * ([10, 20, 30, 40, 100] : List ℚ).length) / 1000) = some 100 := by
    decide
  exact ⟨st, hst, (Option.some.inj (e1.symm.trans hmed)).symm,
    (Option.some.inj (e2.symm.trans h95)).symm,
    (Option.some.inj (e3.symm.trans h995)).symm⟩

/-- C4: summarizing an empty pooled latency sequence does not fail and
reports every latency statistic as exactly 0. -/
theorem empty_pool_all_zero :
    summarize [] =
      some { avg_latency := 0, median_latency := 0, p95_latency := 0,
             p99_latency := 0, p99_5_latency := 0, min_latency := 0,
             max_latency := 0 } := rfl

/-- C5: for every load level with a non-empty pooled latency sequence,
the reported statistics satisfy
min ≤ median ≤ p95 ≤ p99 ≤ p99.5 ≤ max. -/
theorem latency_stats_ordered (l : List ℚ) (h : l ≠ [])
    (st : LatencyStats) (hst : summarize l = some st) :
    st.min_latency ≤ st.median_latency ∧
    st.median_latency ≤ st.p95_latency ∧
    st.p95_latency ≤ st.p99_latency ∧
    st.p99_latency ≤ st.p99_5_latency ∧
    st.p99_5_latency ≤ st.max_latency := by
  obtain ⟨st', hst', hm, h95, h99, h995, hmn, hmx, -⟩ := summarize_pos l h
  rw [hst] at hst'
  obtain rfl := Option.some.inj hst'
  have hsorted := pySort_sorted l
  refine ⟨pyMin_le hmn (mem_of_get?_eq_some hm), ?_, ?_, ?_,
    le_pyMax hmx (mem_of_get?_eq_some h995)⟩
  · exact sorted_get?_mono hsorted (by omega) hm h95
  · exact sorted_get?_mono hsorted (by omega) h95 h99
  · exact sorted_get?_mono hsorted (by omega) h99 h995

/-- C5 witness. -/
theorem latency_stats_ordered_witness :
    ∃ st : LatencyStats, summarize [30, 10, 100, 20, 40] = some st ∧
      (st.min_latency ≤ st.median_latency ∧
        st.median_latency ≤ st.p95_latency ∧
        st.p95_latency ≤ st.p99_latency ∧
        st.p99_latency ≤ st.p99_5_latency ∧
        st.p99_5_latency ≤ st.max_latency) := by
  obtain ⟨st, hst, -, -, -, -, -, -, -⟩ :=
    summarize_pos ([30, 10, 100, 20, 40] : List ℚ) (by decide)
  exact ⟨st, hst, latency_stats_ordered _ (by decide) st hst⟩

/-- C6: aggregation is lossless — the collection loop pools exactly the
concatenation of all sessions' sample lists in list order (and the bots
list is created in ascending session-id order), and the packet totals
are the exact sums of the per-session counters. -/
theorem aggregation_lossless (bots : List SessState) (n : Nat) :
    (collectStats bots).1 = (bots.map (fun bot => bot.latencies)).flatten ∧
    (collectStats bots).2.1 = (bots.map (fun bot => bot.packets_sent)).sum ∧
    (collectStats bots).2.2 =
      (bots.map (fun bot => bot.packets_received)).sum ∧
    (createBots n).map (fun bot => bot.bot_id) = List.range n := by
  have hgo := collectStats_go bots ([], 0, 0)
  unfold collectStats
  rw [hgo]
  refine ⟨by simp, by simp, by simp, ?_⟩
  have hcomp : ((fun bot : SessState => bot.bot_id) ∘ initBot) =
      fun i : Nat => i := rfl
  rw [createBots, List.map_map, hcomp, List.map_id']

/-- C7: a session whose connect attempt fails records zero latency
samples, stays unconnected and unspawned, never retries (at most one
connect attempt), and its failure only removes its contribution from
the level's aggregate counts — aggregation over the remaining sessions
is unchanged. -/
theorem connect_failure_isolated (i : Nat) (s : SessState)
    (hr : Reachable (initBot i) s) (hc : s.connected = false) :
    (s.latencies = [] ∧ s.spawned = false ∧ s.packets_sent = 0 ∧
      s.connect_attempts ≤ 1) ∧
    ∀ pre post : List SessState,
      connectedCount (pre ++ s :: post) = connectedCount (pre ++ post) ∧
      spawnedCount (pre ++ s :: post) = spawnedCount (pre ++ post) ∧
      ((pre ++ s :: post).map (fun bot => bot.latencies)).flatten =
        ((pre ++ post).map (fun bot => bot.latencies)).flatten := by
  obtain ⟨h1, h2, -, -, -, -, h7⟩ := reachable_inv hr
  obtain ⟨hlat, hsp, hsent, -⟩ := h7 hc
  have hat : s.connect_attempts ≤ 1 := by
    by_cases hpc : s.pc = .start
    · simp [(h1 hpc).2.2.2.2.2]
    · simp [h2 hpc]
  refine ⟨⟨hlat, hsp, hsent, hat⟩, fun pre post => ⟨?_, ?_, ?_⟩⟩
  · simp [connectedCount, List.countP_append, List.countP_cons, hc]
  · simp [spawnedCount, List.countP_append, List.countP_cons, hsp]
  · simp [hlat]

/-- C7 witness. -/
theorem connect_failure_isolated_witness :
    (sFailedConnect.latencies = [] ∧ sFailedConnect.spawned = false ∧
      sFailedConnect.packets_sent = 0 ∧
      sFailedConnect.connect_attempts ≤ 1) ∧
    connectedCount ([initBot 1] ++ sFailedConnect :: []) =
      connectedCount ([initBot 1] ++ []) := by
  obtain ⟨hfields, hagg⟩ :=
    connect_failure_isolated 0 sFailedConnect reach_failed_connect rfl
  exact ⟨hfields, (hagg [initBot 1] []).1⟩

/-- C8: if the pre-flight reachability probe fails the whole benchmark
aborts with a diagnostic before any load level runs and produces no
result rows; if it succeeds, every one of the 11 configured load levels
executes unconditionally. -/
theorem preflight_gates_run :
    (∀ runLevel : Nat → ResultRow,
      mainBenchmark false runLevel = Except.error preflight_diagnostic) ∧
    ∀ runLevel : Nat → ResultRow,
      mainBenchmark true runLevel = Except.ok (test_cases.map runLevel) ∧
      (test_cases.map runLevel).length = 11 :=
  ⟨fun _ => rfl, fun _ => ⟨rfl, rfl⟩⟩

/-- C9: building a load level's result record divides by the user count
(`connected / num_users`), so for `num_users = 0` it raises a
`ZeroDivisionError` (modelled as `none`) instead of returning a zeroed
record; for every `num_users ≥ 1` it returns a record. -/
theorem zero_users_raises (bots : List SessState) (dur : ℚ) :
    run_benchmark_result bots 0 dur = none ∧
    ∀ n : Nat, n ≠ 0 → (run_benchmark_result bots n dur).isSome = true := by
  obtain ⟨st, hst⟩ :=
    Option.isSome_iff_exists.mp (summarize_isSome (collectStats bots).1)
  constructor
  · simp only [run_benchmark_result]
    rw [hst]
    simp
  · intro n hn
    simp only [run_benchmark_result]
    rw [hst]
    simp [hn]

/-- C9 witness. -/
theorem zero_users_raises_witness :
    run_benchmark_result [] 0 0 = none ∧
    (run_benchmark_result [] 1 0).isSome = true :=
  ⟨(zero_users_raises [] 0).1, (zero_users_raises [] 0).2 1 (by decide)⟩

/-- C10: for every non-empty pool of length N, each percentile index
the aggregator computes (`N / 2`, `⌊0.95 N⌋`, `⌊0.99 N⌋`, `⌊0.995 N⌋`)
is strictly below N, and summarization never hits an out-of-bounds
index on any pool (the empty pool is excluded by the guard). -/
theorem percentile_indices_safe (l : List ℚ) (h : l.length ≠ 0) :
    (l.length / 2 < l.length ∧ (95 * l.length) / 100 < l.length ∧
      (99 * l.length) / 100 < l.length ∧
      (995 * l.length) / 1000 < l.length) ∧
    ∀ pool : List ℚ, (summarize pool).isSome = true :=
  ⟨by omega, summarize_isSome⟩

/-- C10 witness. -/
theorem percentile_indices_safe_witness :
    (([3, 1, 2] : List ℚ).length ≠ 0) ∧
    (([3, 1, 2] : List ℚ).length / 2 < ([3, 1, 2] : List ℚ).length ∧
      (95 * ([3, 1, 2] : List ℚ).length) / 100 <
        ([3, 1, 2] : List ℚ).length ∧
      (99 * ([3, 1, 2] : List ℚ).length) / 100 <
        ([3, 1, 2] : List ℚ).length ∧
      (995 * ([3, 1, 2] : List ℚ).length) / 1000 <
        ([3, 1, 2] : List ℚ).length) ∧
    (summarize [3, 1, 2]).isSome = true :=
  ⟨by decide, (percentile_indices_safe [3, 1, 2] (by decide)).1,
    (percentile_indices_safe [3, 1, 2] (by decide)).2 [3, 1, 2]⟩
